import Mathlib

/-!
Verification development for the session-orchestration core of the
time-series training service (`backend/app`): the strategy manager that
merges per-strategy leaderboards (`AutoML/manager.py`), the session store
(`sessions/utils.py`), dataset validation
(`src/validation/data_validation.py`) and the training orchestration
(`training/router.py`, `train_prediciton_save/router.py`).

Each Python function is shallowly embedded as an executable Lean
definition over explicit models of the states it touches (the on-disk
session files, the in-memory session cache, the operation traces of the
file-system calls it performs).  Machine floats that only ever get
compared and sorted (validation scores) are embedded as rationals;
timestamps as integers (seconds); JSON records as a finite inductive.
-/

namespace TSApp

/-! ## Paths (`sessions/utils.py`, lines 8-14)

`SESSIONS_BASE_PATH` is derived from `__file__` in the source; its exact
value is irrelevant to every claim, only that all session paths share it,
so it is embedded as a fixed constant string. -/

def SESSIONS_BASE_PATH : String := "training_sessions"

/-- Embeds `get_session_path` (`sessions/utils.py` line 12):
`os.path.join(SESSIONS_BASE_PATH, session_id)`. -/
def get_session_path (session_id : String) : String :=
  SESSIONS_BASE_PATH ++ "/" ++ session_id

/-! ## Leaderboard tables (`AutoML/manager.py`) -/

/-- One row of a per-strategy `leaderboard.csv` file, restricted to the
two columns the manager projects out (`df[["model", "score_val", ...]]`):
the model name and its validation score.  Scores are floats in the
source; they are only ever compared and sorted, so they are embedded as
rationals. -/
structure LRow where
  model : String
  score_val : ℚ
deriving DecidableEq, Repr

/-- One row of the combined leaderboard: a per-strategy row tagged with
the name of its originating strategy (`df["strategy"] = strategy`). -/
structure CRow where
  model : String
  score_val : ℚ
  strategy : String
deriving DecidableEq, Repr

/-- A pandas DataFrame holding combined-leaderboard rows, keeping its
column shape explicit (so an empty result still records its columns). -/
structure Table where
  columns : List String
  rows : List CRow
deriving DecidableEq, Repr

/-- Column shape of the combined leaderboard, as selected in
`AutoML/manager.py` lines 18 and 28. -/
def leaderboardColumns : List String := ["model", "score_val", "strategy"]

/-- Path of one strategy's leaderboard file
(`os.path.join(session_path, strategy, "leaderboard.csv")`, manager.py
line 14). -/
def strategy_leaderboard_path (session_id strategy : String) : String :=
  get_session_path session_id ++ "/" ++ strategy ++ "/" ++ "leaderboard.csv"

/-- The per-strategy leaderboard files visible on disk: a map from file
path to the parsed contents of that CSV (`none` = the file does not
exist). -/
def LbFiles : Type := String → Option (List LRow)

/-- Tagging of the rows read from one strategy's file with its strategy
name (manager.py lines 16-18). -/
def tagRows (strategy : String) (rows : List LRow) : List CRow :=
  rows.map (fun r => { model := r.model, score_val := r.score_val, strategy := strategy })

/-- Comparison used by `combined_df.sort_values(by="score_val",
ascending=True)` (manager.py line 24). -/
def scoreLe (a b : CRow) : Bool := decide (a.score_val ≤ b.score_val)

/-- File-system calls the manager issues while combining leaderboards. -/
inductive FsOp where
  | checkExists (path : String)
  | readCsv (path : String)
  | writeFile (path : String) (content : List LRow)
deriving DecidableEq, Repr

/-- Recognizer for mutating operations in a file-system trace. -/
def FsOp.isWrite : FsOp → Bool
  | .writeFile _ _ => true
  | _ => false

/-- Effect of one file-system call on the on-disk leaderboard files:
existence checks and reads leave the disk unchanged, a write replaces the
file at its path. -/
def applyFsOp (fs : LbFiles) : FsOp → LbFiles
  | .checkExists _ => fs
  | .readCsv _ => fs
  | .writeFile p c => fun q => if q = p then some c else fs q

/-- Effect of a whole trace of file-system calls, first call first. -/
def applyFsTrace (fs : LbFiles) : List FsOp → LbFiles
  | [] => fs
  | op :: rest => applyFsTrace (applyFsOp fs op) rest

/-- Embeds the `for strategy in strategies` loop of
`combine_leaderboards` (manager.py lines 13-20): for each strategy name
it checks whether that strategy's leaderboard file exists; if so it reads
it, tags its rows, and collects them; a missing file is skipped (the
source only prints a message).  Returns the collected per-strategy row
lists together with the trace of file-system calls made. -/
def gatherDfs (fs : LbFiles) (session_id : String) :
    List String → List (List CRow) × List FsOp
  | [] => ([], [])
  | strategy :: rest =>
    let path := strategy_leaderboard_path session_id strategy
    let r := gatherDfs fs session_id rest
    match fs path with
    | some rows => (tagRows strategy rows :: r.1, FsOp.checkExists path :: FsOp.readCsv path :: r.2)
    | none => (r.1, FsOp.checkExists path :: r.2)

/-- Embeds `AutoMLManager.combine_leaderboards` (manager.py lines 9-28)
over the on-disk leaderboard files, also exposing the file-system calls
it makes: gather the tagged rows of each strategy whose file exists; if
at least one file was found, concatenate and sort by `score_val`
ascending; otherwise return an empty table with the leaderboard's column
shape. -/
def combine_leaderboards_run (fs : LbFiles) (session_id : String)
    (strategies : List String) : Table × List FsOp :=
  let (dfs, ops) := gatherDfs fs session_id strategies
  if dfs.isEmpty then
    ({ columns := leaderboardColumns, rows := [] }, ops)
  else
    ({ columns := leaderboardColumns, rows := dfs.flatten.mergeSort scoreLe }, ops)

/-- Result table of `combine_leaderboards`, ignoring the trace. -/
def combine_leaderboards (fs : LbFiles) (session_id : String)
    (strategies : List String) : Table :=
  (combine_leaderboards_run fs session_id strategies).1

/-! ### Helper lemmas about `gatherDfs` -/

/-- Contents gathered by the loop: exactly the tagged rows of the
strategies whose file is present, in registration order. -/
theorem gatherDfs_fst (fs : LbFiles) (session_id : String) :
    ∀ strategies : List String,
      (gatherDfs fs session_id strategies).1 =
        strategies.filterMap
          (fun s => (fs (strategy_leaderboard_path session_id s)).map (tagRows s))
  | [] => rfl
  | strategy :: rest => by
    unfold gatherDfs
    cases h : fs (strategy_leaderboard_path session_id strategy) <;>
      simp [h, gatherDfs_fst fs session_id rest, List.filterMap_cons]

/-- The loop never issues a write. -/
theorem gatherDfs_no_write (fs : LbFiles) (session_id : String) :
    ∀ strategies : List String,
      ((gatherDfs fs session_id strategies).2.all (fun op => !op.isWrite)) = true
  | [] => rfl
  | strategy :: rest => by
    unfold gatherDfs
    cases h : fs (strategy_leaderboard_path session_id strategy) <;>
      simp [h, FsOp.isWrite] <;>
      simpa using gatherDfs_no_write fs session_id rest

/-- A trace without writes leaves the on-disk files untouched. -/
theorem applyFsTrace_no_write (fs : LbFiles) :
    ∀ ops : List FsOp, (ops.all (fun op => !op.isWrite)) = true →
      applyFsTrace fs ops = fs
  | [], _ => rfl
  | op :: rest, h => by
    cases op with
    | checkExists p => exact applyFsTrace_no_write fs rest (by simpa [FsOp.isWrite] using h)
    | readCsv p => exact applyFsTrace_no_write fs rest (by simpa [FsOp.isWrite] using h)
    | writeFile p c => simp [FsOp.isWrite] at h

/-- Transitivity of the score comparison, needed for sortedness. -/
theorem scoreLe_trans (a b c : CRow) (hab : scoreLe a b) (hbc : scoreLe b c) :
    scoreLe a c := by
  simp only [scoreLe, decide_eq_true_eq] at *
  exact le_trans hab hbc

/-- Totality of the score comparison, needed for sortedness. -/
theorem scoreLe_total (a b : CRow) : scoreLe a b || scoreLe b a := by
  simp only [scoreLe, Bool.or_eq_true, decide_eq_true_eq]
  exact le_total a.score_val b.score_val

/-- C1: `combine_leaderboards` reads each registered strategy's persisted
leaderboard file, silently skipping missing files; every resulting row is
tagged with its originating strategy name; the rows are the concatenation
of the present files' tagged rows, reordered so that `score_val` is
ascending; and when no per-strategy file exists the result is an empty
table that still has the `model, score_val, strategy` column shape. -/
theorem combine_leaderboards_spec (fs : LbFiles) (session_id : String)
    (strategies : List String) :
    (combine_leaderboards fs session_id strategies).columns = leaderboardColumns ∧
    List.Perm (combine_leaderboards fs session_id strategies).rows
      (strategies.filterMap
        (fun s => (fs (strategy_leaderboard_path session_id s)).map (tagRows s))).flatten ∧
    (combine_leaderboards fs session_id strategies).rows.Pairwise
      (fun a b => a.score_val ≤ b.score_val) ∧
    ((∀ s ∈ strategies, fs (strategy_leaderboard_path session_id s) = none) →
      (combine_leaderboards fs session_id strategies).rows = []) := by
  unfold combine_leaderboards combine_leaderboards_run
  rw [show (gatherDfs fs session_id strategies) =
      ((gatherDfs fs session_id strategies).1, (gatherDfs fs session_id strategies).2) from rfl]
  simp only [gatherDfs_fst]
  by_cases hempty :
      (strategies.filterMap
        (fun s => (fs (strategy_leaderboard_path session_id s)).map (tagRows s))).isEmpty
  · refine ⟨by simp [hempty], ?_, by simp [hempty], fun _ => by simp [hempty]⟩
    rw [List.isEmpty_iff] at hempty
    simp [hempty]
  · refine ⟨by simp [hempty], ?_, ?_, ?_⟩
    · simpa [hempty] using
        List.mergeSort_perm
          (strategies.filterMap
            (fun s => (fs (strategy_leaderboard_path session_id s)).map (tagRows s))).flatten
          scoreLe
    · have h := List.sorted_mergeSort scoreLe_trans scoreLe_total
        (strategies.filterMap
          (fun s => (fs (strategy_leaderboard_path session_id s)).map (tagRows s))).flatten
      simp only [hempty]
      exact h.imp (fun {a b} hab => by
        simpa [scoreLe, decide_eq_true_eq] using hab)
    · intro hall
      have : (strategies.filterMap
          (fun s => (fs (strategy_leaderboard_path session_id s)).map (tagRows s))) = [] := by
        rw [List.filterMap_eq_nil_iff]
        intro s hs
        simp [hall s hs]
      simp [this] at hempty

/-- Example leaderboard files for the witnesses: only the autogluon file
exists, holding two models with scores out of order. -/
def lbFilesEx : LbFiles := fun p =>
  if p = strategy_leaderboard_path "s1" "autogluon" then
    some [{ model := "DirectTabular", score_val := (-1 : ℚ)/2 },
          { model := "WeightedEnsemble", score_val := -1 }]
  else none

/-- Leaderboard file map with no files at all. -/
def lbFilesNone : LbFiles := fun _ => none

/-- C1 witness: the theorem applied to a concrete file map with no
per-strategy leaderboard files yields the empty, correctly shaped
table. -/
theorem combine_leaderboards_spec_witness :
    (combine_leaderboards lbFilesNone "s1" ["autogluon", "pycaret"]).rows = [] ∧
    (combine_leaderboards lbFilesNone "s1" ["autogluon", "pycaret"]).columns =
      ["model", "score_val", "strategy"] :=
  ⟨(combine_leaderboards_spec lbFilesNone "s1" ["autogluon", "pycaret"]).2.2.2
      (by intro s hs; simp [lbFilesNone]),
    (combine_leaderboards_spec lbFilesNone "s1" ["autogluon", "pycaret"]).1⟩

/-- C8: `combine_leaderboards` is a pure projection of the on-disk
per-strategy leaderboard files.  Its file-system trace contains no write;
replaying the trace leaves the files exactly as they were; and
recomputing on the resulting (unchanged) disk state yields the identical
ranked table. -/
theorem combine_leaderboards_pure (fs : LbFiles) (session_id : String)
    (strategies : List String) :
    ((combine_leaderboards_run fs session_id strategies).2.all
      (fun op => !op.isWrite)) = true ∧
    applyFsTrace fs (combine_leaderboards_run fs session_id strategies).2 = fs ∧
    (combine_leaderboards_run
        (applyFsTrace fs (combine_leaderboards_run fs session_id strategies).2)
        session_id strategies).1 =
      (combine_leaderboards_run fs session_id strategies).1 := by
  have hnw : ((combine_leaderboards_run fs session_id strategies).2.all
      (fun op => !op.isWrite)) = true := by
    unfold combine_leaderboards_run
    rw [show (gatherDfs fs session_id strategies) =
        ((gatherDfs fs session_id strategies).1, (gatherDfs fs session_id strategies).2) from rfl]
    by_cases h : (gatherDfs fs session_id strategies).1.isEmpty <;>
      simpa [h] using gatherDfs_no_write fs session_id strategies
  have hfs : applyFsTrace fs (combine_leaderboards_run fs session_id strategies).2 = fs :=
    applyFsTrace_no_write fs _ hnw
  exact ⟨hnw, hfs, by rw [hfs]⟩

/-! ## Best strategy (`AutoML/manager.py` lines 30-36, 8)

`get_best_strategy` reads the session directory's combined
`leaderboard.csv` with `pd.read_csv` (raising `FileNotFoundError` if the
file is missing), takes `leaderboard.iloc[0]["strategy"]` (raising an
index error if the table is empty), and returns the `autogluon_strategy`
object when that tag equals `'autogluon'`; for any other tag the function
falls through and returns `None`. -/

/-- Concrete strategy implementations present in the code base
(`AutoML/autogluon_strategy.py` line 17, `AutoML/pycaret_strategy.py`
line 13). -/
inductive Strategy where
  | autogluon
  | pycaret
deriving DecidableEq, Repr

/-- Declared `name` attribute of each strategy class. -/
def Strategy.name : Strategy → String
  | .autogluon => "autogluon"
  | .pycaret => "pycaret"

/-- Embeds `AutoMLManager.strategies = [autogluon_strategy]`
(manager.py line 8): the strategy set registered with the manager. -/
def registered_strategies : List Strategy := [Strategy.autogluon]

/-- Exceptions pandas raises on the two reads `get_best_strategy`
performs. -/
inductive PdError where
  | fileNotFound
  | indexError
deriving DecidableEq, Repr

/-- Embeds `pd.read_csv(leaderboard_path)` on the combined leaderboard
(manager.py line 33): the file's parsed rows, or `FileNotFoundError` when
the file does not exist. -/
def read_csv_combined (file : Option (List CRow)) : Except PdError (List CRow) :=
  match file with
  | none => Except.error PdError.fileNotFound
  | some rows => Except.ok rows

/-- Embeds `leaderboard.iloc[0]` (manager.py line 34): the first row, or
an index error when the table is empty. -/
def iloc0 (rows : List CRow) : Except PdError CRow :=
  match rows with
  | [] => Except.error PdError.indexError
  | r :: _ => Except.ok r

/-- Embeds `AutoMLManager.get_best_strategy` (manager.py lines 30-36)
over the content of the session's combined `leaderboard.csv` (`none` =
file missing).  The returned value is `some autogluon` exactly when the
top row's strategy tag is `'autogluon'`; otherwise the Python function
ends without a `return` statement, i.e. yields `None`. -/
def get_best_strategy (combined : Option (List CRow)) :
    Except PdError (Option Strategy) :=
  match read_csv_combined combined with
  | Except.error e => Except.error e
  | Except.ok leaderboard =>
    match iloc0 leaderboard with
    | Except.error e => Except.error e
    | Except.ok best =>
      if best.strategy = "autogluon" then Except.ok (some Strategy.autogluon)
      else Except.ok none

/-- C2 counterexample: with a non-empty combined leaderboard whose top
row is tagged `'pycaret'` — the name of a strategy implementation in the
code base — `get_best_strategy` returns no strategy at all instead of the
strategy of that name; and on an empty leaderboard it fails with a bare
positional-index error, while the code base defines no `NoModelTrained`
error at all. -/
theorem get_best_strategy_claim_false :
    get_best_strategy (some [{ model := "pycaret", score_val := -3, strategy := "pycaret" }]) =
      Except.ok none ∧
    Strategy.pycaret.name = "pycaret" ∧
    (Except.ok none : Except PdError (Option Strategy)) ≠ Except.ok (some Strategy.pycaret) ∧
    get_best_strategy (some []) = Except.error PdError.indexError := by
  refine ⟨rfl, rfl, by simp, rfl⟩

/-- C2 amended: `get_best_strategy` fails with `FileNotFoundError` when
the combined leaderboard file is missing and with a positional-index
error (not a dedicated `NoModelTrained` error) when it is empty; on a
non-empty leaderboard it returns the autogluon strategy exactly when the
top row's tag is `'autogluon'`, and no strategy (Python `None`) for any
other tag. -/
theorem get_best_strategy_characterization (combined : Option (List CRow)) :
    get_best_strategy combined =
      match combined with
      | none => Except.error PdError.fileNotFound
      | some [] => Except.error PdError.indexError
      | some (r :: _) =>
          Except.ok (if r.strategy = "autogluon" then some Strategy.autogluon else none) := by
  cases combined with
  | none => rfl
  | some rows =>
    cases rows with
    | nil => rfl
    | cons r rest =>
      by_cases h : r.strategy = "autogluon" <;>
        simp [get_best_strategy, read_csv_combined, iloc0, h]

/-- C10: whenever the combined leaderboard file exists and is non-empty
and its top row's strategy tag is anything other than `'autogluon'`,
`get_best_strategy` succeeds with no strategy object at all (Python
`None`) — neither a strategy nor an error — leaving the prediction path
nothing to dispatch to. -/
theorem get_best_strategy_none_of_not_autogluon (r : CRow) (rest : List CRow)
    (h : r.strategy ≠ "autogluon") :
    get_best_strategy (some (r :: rest)) = Except.ok none := by
  simp [get_best_strategy, read_csv_combined, iloc0, h]

/-- C10 witness: the theorem applied to a concrete leaderboard whose top
row is tagged `'pycaret'`. -/
theorem get_best_strategy_none_of_not_autogluon_witness :
    get_best_strategy
      (some [{ model := "pycaret", score_val := -3, strategy := "pycaret" },
             { model := "WeightedEnsemble", score_val := 1, strategy := "autogluon" }]) =
      Except.ok none :=
  get_best_strategy_none_of_not_autogluon
    { model := "pycaret", score_val := -3, strategy := "pycaret" }
    [{ model := "WeightedEnsemble", score_val := 1, strategy := "autogluon" }]
    (by decide)

/-! ## Session store (`sessions/utils.py`)

Session metadata are Python dicts serialized to `metadata.json` with
`json.dump`.  They are embedded as a small JSON value type; a status
record is a `jobj`. -/

/-- Values of the fields of a session's status record.  The
`training_parameters` field holds a nested dict of the dumped
`TrainingParameters`; its entries are embedded as strings (`json.dump`
is called with `default=str`), which is all any claim needs of it. -/
inductive JVal where
  | jnull
  | jbool (b : Bool)
  | jnum (n : Int)
  | jstr (s : String)
  | jdict (fields : List (String × String))
deriving DecidableEq, Repr

/-- A status record: a Python dict as built by the routers, keeping
insertion order. -/
abbrev StatusRec : Type := List (String × JVal)

/-- What the source actually passes to `save_session_metadata` /
`json.dump`: normally a status record (a dict); once — the slip in
`train_model` — a bare integer. -/
inductive PyObj where
  | record (fields : StatusRec)
  | scalarInt (n : Int)
deriving DecidableEq, Repr

/-- Python-dict field update on an association list: replace the value of
an existing key in place, otherwise append the new binding at the end
(insertion order, as Python dicts keep it). -/
def setKey {α : Type} : List (String × α) → String → α → List (String × α)
  | [], k, v => [(k, v)]
  | (k', v') :: rest, k, v =>
    if k' = k then (k, v) :: rest else (k', v') :: setKey rest k v

/-- Field lookup on an association list (first binding wins). -/
def getKey {α : Type} : List (String × α) → String → Option α
  | [], _ => none
  | (k', v') :: rest, k => if k' = k then some v' else getKey rest k

/-- Looking up the key just set yields the value just stored. -/
theorem getKey_setKey_self {α : Type} (l : List (String × α)) (k : String) (v : α) :
    getKey (setKey l k v) k = some v := by
  induction l with
  | nil => simp [setKey, getKey]
  | cons kv rest ih =>
    by_cases h : kv.1 = k <;> simp [setKey, getKey, h, ih]

/-- Embeds `dict.update` (`status.update({...})` in the routers): each
new binding replaces an existing key in place or is appended. -/
def statusUpdate (st : StatusRec) (kvs : List (String × JVal)) : StatusRec :=
  kvs.foldl (fun fs kv => setKey fs kv.1 kv.2) st

/-- Field access on a stored object (`metadata.get(key)`): a record is a
dict, the slipped-in bare integer has no fields. -/
def jget : PyObj → String → Option JVal
  | PyObj.record fields, k => getKey fields k
  | PyObj.scalarInt _, _ => none

/-- Path of a session's status file
(`os.path.join(session_path, "metadata.json")`, `sessions/utils.py`
lines 25 and 32). -/
def metadata_path (session_id : String) : String :=
  get_session_path session_id ++ "/" ++ "metadata.json"

/-- File-level operations a metadata write could perform.  A
crash-resilient write-to-temp-then-rename protocol would show up in the
trace as a `writeJson` to a temporary path followed by a `rename` onto
the final path. -/
inductive FileWriteOp where
  | writeJson (path : String) (content : PyObj)
  | rename (src dst : String)
deriving DecidableEq, Repr

/-- Embeds `save_session_metadata` (`sessions/utils.py` lines 22-27) as
the trace of file operations it performs: a single direct
`open(metadata_path, "w")` + `json.dump`, i.e. one in-place write of the
record to the final path.  It touches no other file and does not touch
the in-memory cache (callers update `training_sessions` separately). -/
def save_session_metadata_ops (session_id : String) (metadata : PyObj) : List FileWriteOp :=
  [FileWriteOp.writeJson (metadata_path session_id) metadata]

/-- State of one on-disk file after a possibly interrupted run: either
fully written content, or a torn (partially written) file. -/
inductive FileState where
  | intact (v : PyObj)
  | torn
deriving DecidableEq, Repr

/-- The disk: a map from path to the state of the file there. -/
def Disk : Type := String → Option FileState

/-- Effect of one completed file operation on the disk. -/
def applyWriteOp (d : Disk) : FileWriteOp → Disk
  | FileWriteOp.writeJson p c => fun q => if q = p then some (FileState.intact c) else d q
  | FileWriteOp.rename src dst => fun q =>
      if q = dst then d src else if q = src then none else d q

/-- Effect of a list of completed file operations, first op first. -/
def runWriteOps (d : Disk) : List FileWriteOp → Disk
  | [] => d
  | op :: rest => runWriteOps (applyWriteOp d op) rest

/-- Crash semantics: the first `k` operations complete, then the process
dies in the middle of operation `k`.  An interrupted `writeJson` leaves a
torn file at its target path (`open(.., "w")` truncates before `json.dump`
finishes); `rename` is atomic, so an interrupted rename leaves the disk
as it was. -/
def crashAt (d : Disk) (ops : List FileWriteOp) (k : Nat) : Disk :=
  let completed := runWriteOps d (ops.take k)
  match ops.get? k with
  | some (FileWriteOp.writeJson p _) => fun q => if q = p then some FileState.torn else completed q
  | _ => completed

/-- Sample status record used by concrete counterexamples. -/
def sampleStatus : PyObj :=
  PyObj.record [("status", JVal.jstr "running"), ("progress", JVal.jnum 0)]

/-- C3 counterexample: the persist operation is a single direct write to
`metadata.json` — no temporary file, no rename — and a crash during that
one write leaves the status file torn on disk, refuting the claim that a
crash during any single write never corrupts the file. -/
theorem save_session_metadata_not_atomic :
    save_session_metadata_ops "s1" sampleStatus =
      [FileWriteOp.writeJson (metadata_path "s1") sampleStatus] ∧
    crashAt (fun _ => none) (save_session_metadata_ops "s1" sampleStatus) 0
      (metadata_path "s1") = some FileState.torn := by
  constructor
  · rfl
  · simp [crashAt, save_session_metadata_ops, runWriteOps]

/-- C3 amended: every call of `save_session_metadata` performs exactly
one file operation, an in-place `writeJson` of the record straight to the
session's `metadata.json` (the in-memory cache is updated separately by
its callers); consequently a crash during that write leaves a torn
status file, there being no temporary file and no rename. -/
theorem save_session_metadata_direct_write (session_id : String) (metadata : PyObj)
    (d : Disk) :
    save_session_metadata_ops session_id metadata =
      [FileWriteOp.writeJson (metadata_path session_id) metadata] ∧
    (save_session_metadata_ops session_id metadata).length = 1 ∧
    ((save_session_metadata_ops session_id metadata).all
      (fun op => match op with | FileWriteOp.rename _ _ => false | _ => true)) = true ∧
    crashAt d (save_session_metadata_ops session_id metadata) 0
      (metadata_path session_id) = some FileState.torn := by
  refine ⟨rfl, rfl, rfl, ?_⟩
  simp [crashAt, save_session_metadata_ops, runWriteOps]

/-! ## Session directory creation (`sessions/utils.py` lines 16-20) -/

/-- Errors `os.makedirs` can raise. -/
inductive OsError where
  | fileExistsError
deriving DecidableEq, Repr

/-- The set of directories that exist. -/
def DirSet : Type := String → Bool

/-- Embeds `os.makedirs(path, exist_ok=...)`: raises `FileExistsError`
when the directory exists and `exist_ok` is false, otherwise ensures the
directory exists. -/
def makedirs (dirs : DirSet) (path : String) (exist_ok : Bool) : Except OsError DirSet :=
  if dirs path && !exist_ok then Except.error OsError.fileExistsError
  else Except.ok (fun q => if q = path then true else dirs q)

/-- Embeds `create_session_directory` (`sessions/utils.py` lines 16-20):
`os.makedirs(session_path, exist_ok=True)` followed by returning the
path. -/
def create_session_directory (dirs : DirSet) (session_id : String) :
    Except OsError (String × DirSet) :=
  match makedirs dirs (get_session_path session_id) true with
  | Except.error e => Except.error e
  | Except.ok dirs' => Except.ok (get_session_path session_id, dirs')

/-- Errors of the session-store contract as the spec words it.  The code
base defines no such error. -/
inductive SpecSessionError where
  | alreadyExists
deriving DecidableEq, Repr

/-- Modelled from the spec: `create(session_id) -> directory_path` is
required to fail with `AlreadyExists` when a directory for the id already
exists, instead of silently reusing it.  This definition follows the
spec's words for comparison with `create_session_directory` above. -/
def create_session_directory_required (dirs : DirSet) (session_id : String) :
    Except SpecSessionError (String × DirSet) :=
  if dirs (get_session_path session_id) then Except.error SpecSessionError.alreadyExists
  else Except.ok (get_session_path session_id,
    fun q => if q = get_session_path session_id then true else dirs q)

/-- Directory set in which session `s1`'s directory already exists. -/
def dirsWithS1 : DirSet := fun p => decide (p = get_session_path "s1")

/-- C6 counterexample: with `s1`'s directory already present, the spec's
required behaviour is an `AlreadyExists` failure, but the code's
`create_session_directory` (built on `exist_ok=True`) succeeds and
silently returns the existing directory's path. -/
theorem create_session_directory_claim_false :
    dirsWithS1 (get_session_path "s1") = true ∧
    create_session_directory_required dirsWithS1 "s1" =
      Except.error SpecSessionError.alreadyExists ∧
    (create_session_directory dirsWithS1 "s1").isOk = true := by
  refine ⟨by simp [dirsWithS1], by simp [create_session_directory_required, dirsWithS1], ?_⟩
  simp [create_session_directory, makedirs, Except.isOk, Except.toBool]

/-- C6 amended: `create_session_directory` never fails: it creates the
directory when absent and silently reuses it on an id collision, always
returning the session's path, with the directory present afterwards. -/
theorem create_session_directory_total (dirs : DirSet) (session_id : String) :
    create_session_directory dirs session_id =
      Except.ok (get_session_path session_id,
        fun q => if q = get_session_path session_id then true else dirs q) := by
  simp [create_session_directory, makedirs]

/-! ## Status cache and polling (`sessions/utils.py` lines 9, 22-37;
`training/router.py` lines 40-50) -/

/-- Combined state of the session store: the in-memory
`training_sessions` dict shared by the routers, and the per-session
`metadata.json` files on disk, both keyed by session id. -/
structure Store where
  cache : List (String × PyObj)
  disk : List (String × PyObj)

/-- Embeds `save_session_metadata` at the state level (`sessions/utils.py`
lines 22-27): the record replaces the session's `metadata.json`. -/
def save_session_metadata (st : Store) (session_id : String) (metadata : PyObj) : Store :=
  { st with disk := setKey st.disk session_id metadata }

/-- Embeds the persist idiom every router call site uses
(`training_sessions[session_id] = status` next to
`save_session_metadata(session_id, status)`, e.g. `training/router.py`
lines 71-72, 126-127): update the in-memory cache and write the on-disk
record. -/
def put_status (st : Store) (session_id : String) (status : StatusRec) : Store :=
  let st' := { st with cache := setKey st.cache session_id (PyObj.record status) }
  save_session_metadata st' session_id (PyObj.record status)

/-- Embeds `load_session_metadata` (`sessions/utils.py` lines 29-37):
read the session's `metadata.json`, returning the empty dict when the
file does not exist (`FileNotFoundError` is caught). -/
def load_session_metadata (st : Store) (session_id : String) : PyObj :=
  (getKey st.disk session_id).getD (PyObj.record [])

/-- Python truthiness of a loaded metadata value (`if metadata:`): an
empty dict is falsy, a non-empty dict truthy, an int truthy unless 0. -/
def truthy : PyObj → Bool
  | PyObj.record fields => !fields.isEmpty
  | PyObj.scalarInt n => decide (n ≠ 0)

/-- Embeds `get_training_status` (`training/router.py` lines 40-50): if
the id is not in the in-memory cache, fall back to the on-disk record
and, when that is truthy, repopulate the cache; finally answer from the
cache. -/
def get_training_status (st : Store) (session_id : String) : Option PyObj × Store :=
  match getKey st.cache session_id with
  | some v => (some v, st)
  | none =>
    let metadata := load_session_metadata st session_id
    if truthy metadata then
      let st' := { st with cache := setKey st.cache session_id metadata }
      (getKey st'.cache session_id, st')
    else
      (getKey st.cache session_id, st)

/-- Process restart: the module-level `training_sessions` dict is gone,
the on-disk records survive. -/
def restart (st : Store) : Store :=
  { st with cache := [] }

/-- Well-formedness of a status record: it carries the state label (all
records the routers build start with a `"status"` field). -/
def hasStatusLabel (status : StatusRec) : Bool :=
  (getKey status "status").isSome

/-- C7: `put_status` followed by `get_training_status` returns exactly
the record stored — both on a warm cache and after a simulated process
restart, where the empty cache forces the fallback to the on-disk JSON
record, which is returned and put back into the cache. -/
theorem put_get_status_roundtrip (st : Store) (session_id : String)
    (status : StatusRec) (h : hasStatusLabel status = true) :
    (get_training_status (put_status st session_id status) session_id).1 =
      some (PyObj.record status) ∧
    (get_training_status (restart (put_status st session_id status)) session_id).1 =
      some (PyObj.record status) ∧
    getKey (get_training_status (restart (put_status st session_id status))
        session_id).2.cache session_id = some (PyObj.record status) := by
  have hne : status.isEmpty = false := by
    cases status with
    | nil => simp [hasStatusLabel, getKey] at h
    | cons kv rest => simp
  refine ⟨?_, ?_, ?_⟩
  · simp [get_training_status, put_status, save_session_metadata, getKey_setKey_self]
  · simp [get_training_status, restart, load_session_metadata, put_status,
      save_session_metadata, getKey_setKey_self, truthy, hne, getKey]
  · simp [get_training_status, restart, load_session_metadata, put_status,
      save_session_metadata, getKey_setKey_self, truthy, hne, getKey]

/-- C7 witness: the round-trip theorem applied to a concrete store and a
concrete running-status record. -/
theorem put_get_status_roundtrip_witness :
    (get_training_status
        (restart (put_status { cache := [], disk := [] } "s1"
          [("status", JVal.jstr "running"), ("progress", JVal.jnum 0)])) "s1").1 =
      some (PyObj.record [("status", JVal.jstr "running"), ("progress", JVal.jnum 0)]) :=
  (put_get_status_roundtrip { cache := [], disk := [] } "s1"
    [("status", JVal.jstr "running"), ("progress", JVal.jnum 0)] (by decide)).2.1

/-! ## Retention cleanup (`sessions/utils.py` lines 39-56)

`cleanup_old_sessions` walks the session directories; for each it loads
`metadata.json` (missing file = empty dict), parses
`metadata.get("create_time", "")` with `datetime.fromisoformat`, and
removes the directory when the elapsed whole days exceed `max_age_days`.
The per-directory `try` catches only `(ValueError, FileNotFoundError)`:
an unparsable or missing timestamp string, and `json.JSONDecodeError`
from a corrupt file, leave that session in place.  But when the file
holds valid JSON that is not a dict — which `save_session_metadata`
itself produces via the `train_model` slip that persists a bare integer
(`training/router.py` line 264) — `load_session_metadata` returns an
`int` and `metadata.get(...)` raises `AttributeError`, which is not
caught: the whole sweep aborts at that directory, and every later
directory, however old, survives.

`datetime.fromisoformat` is external; it is embedded as a parameter
`parseIso : String → Option Int` mapping an ISO string to a timestamp in
seconds (`none` = `ValueError`), with the fact `parseIso "" = none`
(Python rejects the empty string) as an explicit hypothesis where
needed. -/

/-- Content of one session's `metadata.json` as the cleanup sees it:
syntactically corrupt JSON (so `json.load` raises `JSONDecodeError`, a
`ValueError`), a valid-JSON non-dict value such as the bare integer the
line-264 slip persists, or a record; only a record's string-valued
fields matter here, since `create_time` is written via `isoformat()`. -/
inductive MetaFile where
  | corrupt
  | scalar (n : Int)
  | record (fields : List (String × String))
deriving DecidableEq, Repr

/-- One directory under `SESSIONS_BASE_PATH`: its id and its
`metadata.json` (`none` = no such file). -/
structure SessionDir where
  session_id : String
  metadata_file : Option MetaFile
deriving DecidableEq, Repr

/-- Whether processing this session's record raises an exception the
loop's `except (ValueError, FileNotFoundError)` does not catch: exactly
the `AttributeError` from `metadata.get(...)` when `metadata.json` holds
a valid-JSON non-dict value. -/
def raisesUncaught (s : SessionDir) : Bool :=
  match s.metadata_file with
  | some (MetaFile.scalar _) => true
  | _ => false

/-- The recorded creation time of a session, as the cleanup recovers it
when no uncaught exception intervenes:
`fromisoformat(load_session_metadata(id).get("create_time", ""))`,
`none` when that raises a (caught) `ValueError`.  On a scalar record the
sweep never reaches the parse; see `raisesUncaught`. -/
def recorded_create_time (parseIso : String → Option Int) (s : SessionDir) : Option Int :=
  match s.metadata_file with
  | none => parseIso ""
  | some MetaFile.corrupt => none
  | some (MetaFile.scalar _) => none
  | some (MetaFile.record fields) => parseIso ((getKey fields "create_time").getD "")

/-- Age in whole days, as Python's `(now - create_time).days` computes it
(`timedelta.days` floors towards minus infinity). -/
def age_days (now create_time : Int) : Int :=
  Int.fdiv (now - create_time) 86400

/-- Outcome of the loop body for one session directory. -/
inductive StepResult where
  | keep
  | remove
  | abortSweep
deriving DecidableEq, Repr

/-- Embeds the body of the `for session_id in os.listdir(...)` loop
(`sessions/utils.py` lines 45-56): load the record (missing file = empty
dict), read `create_time` with default `""`, parse it, and remove the
directory when the age in whole days exceeds `max_age_days`; a
`ValueError` or `FileNotFoundError` is caught and the directory kept; a
scalar record makes `metadata.get` raise `AttributeError`, which
nothing catches. -/
def cleanup_step (parseIso : String → Option Int) (now max_age_days : Int)
    (s : SessionDir) : StepResult :=
  match s.metadata_file with
  | none =>
    match parseIso "" with
    | none => StepResult.keep
    | some t => if age_days now t > max_age_days then StepResult.remove else StepResult.keep
  | some MetaFile.corrupt => StepResult.keep
  | some (MetaFile.scalar _) => StepResult.abortSweep
  | some (MetaFile.record fields) =>
    match parseIso ((getKey fields "create_time").getD "") with
    | none => StepResult.keep
    | some t => if age_days now t > max_age_days then StepResult.remove else StepResult.keep

/-- Removal condition in the exception-free cases: the recorded creation
time parses and the age in whole days exceeds `max_age_days`. -/
def should_remove (parseIso : String → Option Int) (now max_age_days : Int)
    (s : SessionDir) : Bool :=
  match recorded_create_time parseIso s with
  | none => false
  | some t => decide (age_days now t > max_age_days)

/-- Embeds `cleanup_old_sessions` (`sessions/utils.py` lines 39-56) as
the session directories surviving the sweep, in `listdir` order: each
directory is kept or removed by `cleanup_step`, and an uncaught
exception aborts the whole function, leaving the current directory and
every later one in place. -/
def cleanup_old_sessions (parseIso : String → Option Int) (now max_age_days : Int) :
    List SessionDir → List SessionDir
  | [] => []
  | s :: rest =>
    match cleanup_step parseIso now max_age_days s with
    | StepResult.keep => s :: cleanup_old_sessions parseIso now max_age_days rest
    | StepResult.remove => cleanup_old_sessions parseIso now max_age_days rest
    | StepResult.abortSweep => s :: rest

/-- A session that raises nothing uncaught is kept or removed exactly by
`should_remove`. -/
theorem cleanup_step_of_no_raise (parseIso : String → Option Int)
    (now max_age_days : Int) (s : SessionDir) (h : raisesUncaught s = false) :
    cleanup_step parseIso now max_age_days s =
      (if should_remove parseIso now max_age_days s then StepResult.remove
       else StepResult.keep) := by
  cases hm : s.metadata_file with
  | none =>
    simp only [cleanup_step, should_remove, recorded_create_time, hm]
    cases parseIso "" <;> simp
  | some mf =>
    cases mf with
    | corrupt => simp [cleanup_step, should_remove, recorded_create_time, hm]
    | scalar n => simp [raisesUncaught, hm] at h
    | record fields =>
      simp only [cleanup_step, should_remove, recorded_create_time, hm]
      cases parseIso ((getKey fields "create_time").getD "") <;> simp

/-- A session with a scalar record aborts the loop body. -/
theorem cleanup_step_abort (parseIso : String → Option Int)
    (now max_age_days : Int) (s : SessionDir) (h : raisesUncaught s = true) :
    cleanup_step parseIso now max_age_days s = StepResult.abortSweep := by
  cases hm : s.metadata_file with
  | none => simp [raisesUncaught, hm] at h
  | some mf =>
    cases mf with
    | corrupt => simp [raisesUncaught, hm] at h
    | scalar n => simp [cleanup_step, hm]
    | record fields => simp [raisesUncaught, hm] at h

/-- On a sweep that meets no scalar record, the cleanup is the filter by
`should_remove`. -/
theorem cleanup_eq_filter (parseIso : String → Option Int) (now max_age_days : Int) :
    ∀ sessions : List SessionDir,
      (sessions.all (fun x => !raisesUncaught x)) = true →
        cleanup_old_sessions parseIso now max_age_days sessions =
          sessions.filter (fun s => !should_remove parseIso now max_age_days s)
  | [], _ => rfl
  | s :: rest, h => by
    rw [List.all_cons, Bool.and_eq_true] at h
    have hs : raisesUncaught s = false := by simpa using h.1
    have hr := cleanup_eq_filter parseIso now max_age_days rest h.2
    simp only [cleanup_old_sessions,
      cleanup_step_of_no_raise parseIso now max_age_days s hs]
    by_cases hrem : should_remove parseIso now max_age_days s = true <;>
      simp [hrem, hr]

/-- C5 counterexample: a sweep over a directory whose `metadata.json`
holds the bare integer 90 — exactly what the `train_model` slip persists
— followed by a directory 10 whole days old with `max_age_days = 7`.
The `AttributeError` aborts the sweep at the scalar record, so the
10-day-old session is not removed although its recorded creation time is
parseable and older than the threshold, refuting "removes exactly those
sessions whose recorded creation time is older than max_age". -/
theorem cleanup_old_sessions_claim_false :
    recorded_create_time
      (fun v => if v = "2025-01-01T00:00:00" then some 0 else none)
      { session_id := "old",
        metadata_file := some (MetaFile.record [("create_time", "2025-01-01T00:00:00")]) } =
      some 0 ∧
    age_days 864000 0 > 7 ∧
    cleanup_old_sessions
      (fun v => if v = "2025-01-01T00:00:00" then some 0 else none) 864000 7
      [{ session_id := "slip", metadata_file := some (MetaFile.scalar 90) },
       { session_id := "old",
         metadata_file := some (MetaFile.record [("create_time", "2025-01-01T00:00:00")]) }] =
      [{ session_id := "slip", metadata_file := some (MetaFile.scalar 90) },
       { session_id := "old",
         metadata_file := some (MetaFile.record [("create_time", "2025-01-01T00:00:00")]) }] := by
  refine ⟨by decide, by decide, by decide⟩

/-- C5 amended: provided the sweep meets no valid-JSON non-dict record,
the cleanup removes exactly those session directories whose recorded
creation time is readable and lies more than `max_age_days` whole days
before `now`, and a session whose age cannot be determined — missing
`metadata.json`, corrupt JSON, or an unparsable/missing `create_time`
string — is never deleted (those raise only caught exceptions); but a
record holding a bare scalar, as the `train_model` slip writes, raises
an uncaught `AttributeError` that aborts the sweep there, leaving that
session and every later one in place, removed or not. -/
theorem cleanup_old_sessions_amended :
    (∀ (parseIso : String → Option Int) (now max_age_days : Int)
        (sessions : List SessionDir) (s : SessionDir),
      (sessions.all (fun x => !raisesUncaught x)) = true →
      s ∈ sessions →
        ((recorded_create_time parseIso s = none →
          s ∈ cleanup_old_sessions parseIso now max_age_days sessions) ∧
         (∀ t : Int, recorded_create_time parseIso s = some t →
          (s ∉ cleanup_old_sessions parseIso now max_age_days sessions ↔
            age_days now t > max_age_days)))) ∧
    (∀ (parseIso : String → Option Int) (now max_age_days : Int)
        (pre post : List SessionDir) (s : SessionDir),
      (pre.all (fun x => !raisesUncaught x)) = true →
      raisesUncaught s = true →
        cleanup_old_sessions parseIso now max_age_days (pre ++ s :: post) =
          cleanup_old_sessions parseIso now max_age_days pre ++ s :: post) := by
  constructor
  · intro parseIso now max_age_days sessions s hclean hs
    rw [cleanup_eq_filter parseIso now max_age_days sessions hclean]
    constructor
    · intro hnone
      simp only [List.mem_filter]
      exact ⟨hs, by simp [should_remove, hnone]⟩
    · intro t ht
      simp only [List.mem_filter]
      constructor
      · intro hnotmem
        by_contra hyoung
        exact hnotmem ⟨hs, by simp [should_remove, ht, hyoung]⟩
      · intro hold hmem
        have := hmem.2
        simp [should_remove, ht, hold] at this
  · intro parseIso now max_age_days pre post s hpre hs
    induction pre with
    | nil =>
      simp only [List.nil_append, cleanup_old_sessions,
        cleanup_step_abort parseIso now max_age_days s hs]
    | cons x pre' ih =>
      rw [List.all_cons, Bool.and_eq_true] at hpre
      have hx : raisesUncaught x = false := by simpa using hpre.1
      have ih' := ih hpre.2
      simp only [List.cons_append, cleanup_old_sessions,
        cleanup_step_of_no_raise parseIso now max_age_days x hx]
      by_cases hrem : should_remove parseIso now max_age_days x = true <;>
        simp [hrem, ih']

/-- Concrete ISO-timestamp parser for the witness: knows two timestamps
(day 0 and day 10), rejects everything else — in particular the empty
string, as `datetime.fromisoformat` does. -/
def parseIsoEx : String → Option Int := fun s =>
  if s = "2025-01-01T00:00:00" then some 0
  else if s = "2025-01-11T00:00:00" then some 864000
  else none

/-- Session created at day 0 — 10 whole days old at the witness's `now`. -/
def sessOld : SessionDir :=
  { session_id := "old",
    metadata_file := some (MetaFile.record [("create_time", "2025-01-01T00:00:00")]) }

/-- Session created at day 10 — 0 whole days old at the witness's `now`. -/
def sessNew : SessionDir :=
  { session_id := "new",
    metadata_file := some (MetaFile.record [("create_time", "2025-01-11T00:00:00")]) }

/-- Session whose `metadata.json` is missing. -/
def sessNoMeta : SessionDir :=
  { session_id := "nometa", metadata_file := none }

/-- Session whose `metadata.json` is corrupt JSON. -/
def sessCorrupt : SessionDir :=
  { session_id := "corrupt", metadata_file := some MetaFile.corrupt }

/-- Session whose `metadata.json` holds the bare integer the
`train_model` slip persists. -/
def sessSlip : SessionDir :=
  { session_id := "slip", metadata_file := some (MetaFile.scalar 90) }

/-- C5 witness: the amended theorem applied to concrete sweeps.  With
`max_age_days = 7`, `now` at day 10 and no scalar record in sight, the
10-day-old session is removed while the fresh, record-missing and
corrupt-record sessions are kept; and a sweep that meets the scalar
record aborts there, leaving the trailing over-age session untouched. -/
theorem cleanup_old_sessions_amended_witness :
    sessOld ∉ cleanup_old_sessions parseIsoEx 864000 7
      [sessOld, sessNew, sessNoMeta, sessCorrupt] ∧
    sessNew ∈ cleanup_old_sessions parseIsoEx 864000 7
      [sessOld, sessNew, sessNoMeta, sessCorrupt] ∧
    sessNoMeta ∈ cleanup_old_sessions parseIsoEx 864000 7
      [sessOld, sessNew, sessNoMeta, sessCorrupt] ∧
    sessCorrupt ∈ cleanup_old_sessions parseIsoEx 864000 7
      [sessOld, sessNew, sessNoMeta, sessCorrupt] ∧
    cleanup_old_sessions parseIsoEx 864000 7 ([sessOld] ++ sessSlip :: [sessOld]) =
      cleanup_old_sessions parseIsoEx 864000 7 [sessOld] ++ sessSlip :: [sessOld] := by
  refine ⟨?_, ?_, ?_, ?_, ?_⟩
  · exact ((cleanup_old_sessions_amended.1 parseIsoEx 864000 7
      [sessOld, sessNew, sessNoMeta, sessCorrupt] sessOld
      (by decide) (by decide)).2 0 (by decide)).mpr (by decide)
  · by_contra hnot
    exact absurd (((cleanup_old_sessions_amended.1 parseIsoEx 864000 7
      [sessOld, sessNew, sessNoMeta, sessCorrupt] sessNew
      (by decide) (by decide)).2 864000 (by decide)).mp hnot) (by decide)
  · exact (cleanup_old_sessions_amended.1 parseIsoEx 864000 7
      [sessOld, sessNew, sessNoMeta, sessCorrupt] sessNoMeta
      (by decide) (by decide)).1 (by decide)
  · exact (cleanup_old_sessions_amended.1 parseIsoEx 864000 7
      [sessOld, sessNew, sessNoMeta, sessCorrupt] sessCorrupt
      (by decide) (by decide)).1 (by decide)
  · exact cleanup_old_sessions_amended.2 parseIsoEx 864000 7 [sessOld] [sessOld]
      sessSlip (by decide) (by decide)

/-! ## Dataset validation (`src/validation/data_validation.py` lines 12-60)

Only the error-determining prefix of `validate_dataset` is embedded:
after line 60 the source function only accumulates `warnings` and
`stats`; `result["is_valid"]` and `result["errors"]` are never touched
again, and each failing check returns immediately.  Pandas' datetime
parser is external and is embedded as oracles `to_datetime_ok` (whether
`pd.to_datetime(df[col], errors='raise')` succeeds on a column) and
`to_datetime_err` (the text of the exception it raises otherwise). -/

/-- Pandas dtypes relevant to the validation checks. -/
inductive Dtype where
  | datetime64
  | intDtype
  | floatDtype
  | objectDtype
deriving DecidableEq, Repr

/-- Embeds `pd.api.types.is_numeric_dtype`. -/
def Dtype.isNumeric : Dtype → Bool
  | Dtype.intDtype => true
  | Dtype.floatDtype => true
  | _ => false

/-- One DataFrame column: its name and dtype (the checks the claims
depend on never look at individual cells beyond the parse oracle). -/
structure DFColumn where
  name : String
  dtype : Dtype
deriving DecidableEq, Repr

/-- A submitted dataset, as the validation sees it. -/
structure DataFrame where
  cols : List DFColumn
deriving DecidableEq, Repr

/-- Embeds `col in df.columns`. -/
def DataFrame.hasCol (df : DataFrame) (c : String) : Bool :=
  df.cols.any (fun col => col.name = c)

/-- Dtype of a named column, if present. -/
def DataFrame.dtypeOf (df : DataFrame) (c : String) : Option Dtype :=
  (df.cols.find? (fun col => col.name = c)).map (fun col => col.dtype)

/-- Embeds the Python truthiness guard `if col and col != "<нет>"` used
on each column-name parameter. -/
def colGiven (c : String) : Bool := c ≠ "" && c ≠ "<нет>"

/-- Required columns, in the order lines 30-36 collect them. -/
def requiredCols (dt_col tgt_col : String) (id_col : Option String) : List String :=
  (if colGiven dt_col then [dt_col] else []) ++
  (if colGiven tgt_col then [tgt_col] else []) ++
  (match id_col with
   | some c => if colGiven c then [c] else []
   | none => [])

/-- Required columns absent from the dataset (line 38). -/
def missingRequired (df : DataFrame) (dt_col tgt_col : String)
    (id_col : Option String) : List String :=
  (requiredCols dt_col tgt_col id_col).filter (fun c => !df.hasCol c)

/-- Condition of the datetime check failing (lines 45-53): the column is
given and present, its dtype is not already datetime64, and
`pd.to_datetime(..., errors='raise')` raises. -/
def dtCheckFails (df : DataFrame) (to_datetime_ok : String → Bool) (dt_col : String) : Bool :=
  colGiven dt_col && df.hasCol dt_col &&
    !(df.dtypeOf dt_col == some Dtype.datetime64) && !to_datetime_ok dt_col

/-- Condition of the target check failing (lines 56-60): the column is
given and present and its dtype is not numeric. -/
def tgtCheckFails (df : DataFrame) (tgt_col : String) : Bool :=
  colGiven tgt_col && df.hasCol tgt_col &&
    !((df.dtypeOf tgt_col).map Dtype.isNumeric).getD false

/-- Error message of the missing-columns check (line 41). -/
def missingColsMsg (missing : List String) : String :=
  "Отсутствуют обязательные колонки: " ++ String.intercalate ", " missing

/-- Error message of the datetime check (line 52); the tail is the text
of the pandas exception. -/
def badDatetimeMsg (dt_col err : String) : String :=
  "Колонка " ++ dt_col ++ " содержит некорректные значения дат: " ++ err

/-- Error message of the non-numeric-target check (line 59). -/
def badTargetMsg (tgt_col : String) : String :=
  "Колонка " ++ tgt_col ++ " должна содержать числовые значения."

/-- Validity flag and error list returned by `validate_dataset`. -/
structure ValidationResult where
  is_valid : Bool
  errors : List String
deriving DecidableEq, Repr

/-- Embeds `validate_dataset` (`src/validation/data_validation.py` lines
12-60) restricted to `is_valid` and `errors`: each of the three
structural checks fails fast, returning a single concrete message; when
all pass the dataset is valid with no errors. -/
def validate_dataset (df : DataFrame) (to_datetime_ok : String → Bool)
    (to_datetime_err : String → String) (dt_col tgt_col : String)
    (id_col : Option String) : ValidationResult :=
  let missing := missingRequired df dt_col tgt_col id_col
  if !missing.isEmpty then
    { is_valid := false, errors := [missingColsMsg missing] }
  else if dtCheckFails df to_datetime_ok dt_col then
    { is_valid := false, errors := [badDatetimeMsg dt_col (to_datetime_err dt_col)] }
  else if tgtCheckFails df tgt_col then
    { is_valid := false, errors := [badTargetMsg tgt_col] }
  else
    { is_valid := true, errors := [] }

/-! ## Training orchestration (`training/router.py` lines 52-273,
`train_prediciton_save/router.py` lines 43-143)

Both background jobs are embedded as the sequence of values they pass to
`save_session_metadata` (the persisted status trace), the final
in-memory status record, and whether the engine (the `train_model` body)
was ever entered.  The pandas/AutoGluon work inside `train_model` is
external: the embedding keeps its persist points and takes the
engine's outcome as a parameter; likewise the prediction step of the
combined flow. -/

/-- Outcome of the external engine work inside `train_model`: success, or
an exception carrying whatever was persisted before the failure, the
in-memory status at that point, and the exception text. -/
inductive EngineRun where
  | success
  | failure (persisted : List PyObj) (statusAtFail : StatusRec) (msg : String)

/-- Outcome of the prediction step of the combined
train-predict-save flow. -/
inductive PredictRun where
  | success
  | failure (msg : String)

/-- Initial status record built at the top of both background jobs
(`training/router.py` lines 63-70). -/
def initialRunStatus (startTime sessPath origName : String)
    (params : List (String × String)) : StatusRec :=
  [("status", JVal.jstr "running"),
   ("start_time", JVal.jstr startTime),
   ("progress", JVal.jnum 0),
   ("session_path", JVal.jstr sessPath),
   ("original_filename", JVal.jstr origName),
   ("training_parameters", JVal.jdict params)]

/-- Failure reason recorded when validation fails
(`training/router.py` line 83). -/
def validation_error_message (errors : List String) : String :=
  "Данные не прошли валидацию: " ++ String.intercalate "; " errors

/-- Embeds the successful path of `train_model` (`training/router.py`
lines 143-269): the persisted values at its six `save_session_metadata`
call sites plus the slip at line 264 — after `status.update({"progress":
90})` the source persists `text_to_progress['metadata']` itself, a bare
integer, instead of the status record — and the in-memory status on
return. -/
def train_model_success (tp : String → Int) (st : StatusRec) : List PyObj × StatusRec :=
  let st1 := statusUpdate st [("progress", JVal.jnum (tp "preparation"))]
  let st2 := statusUpdate st1 [("progress", JVal.jnum (tp "holidays"))]
  let st3 := statusUpdate st2 [("progress", JVal.jnum (tp "missings"))]
  let st4 := statusUpdate st3 [("progress", JVal.jnum (tp "dataframe"))]
  let st5 := statusUpdate st4 [("progress", JVal.jnum (tp "training"))]
  let st6 := statusUpdate st5 [("progress", JVal.jnum 90)]
  ([PyObj.record st1, PyObj.record st2, PyObj.record st3, PyObj.record st4,
    PyObj.record st4, PyObj.record st5, PyObj.scalarInt (tp "metadata")], st6)

/-- Embeds `run_training_async` (`training/router.py` lines 52-140):
persist the initial running record; validate, and on failure record the
terminal failed status (with the joined validation messages) without
ever entering the engine; otherwise bump progress to 10, run
`train_model`, and either record the terminal completed status or, on an
engine exception, the terminal failed status with the wrapped error.
Returns (persisted trace, final in-memory status, engine entered?). -/
def run_training_async (vres : ValidationResult) (engine : EngineRun)
    (tp : String → Int) (startTime endTime sessPath origName : String)
    (params : List (String × String)) : List PyObj × StatusRec × Bool :=
  let st0 := initialRunStatus startTime sessPath origName params
  if vres.is_valid = false then
    let stFail := statusUpdate st0
      [("status", JVal.jstr "failed"),
       ("error", JVal.jstr (validation_error_message vres.errors)),
       ("end_time", JVal.jstr endTime)]
    ([PyObj.record st0, PyObj.record stFail], stFail, false)
  else
    let st10 := statusUpdate st0 [("progress", JVal.jnum 10)]
    match engine with
    | EngineRun.success =>
      let r := train_model_success tp st10
      let stDone := statusUpdate r.2
        [("status", JVal.jstr "completed"),
         ("end_time", JVal.jstr endTime),
         ("progress", JVal.jnum 100),
         ("model_path", JVal.jstr (sessPath ++ "/model")),
         ("training_parameters", JVal.jdict params)]
      (PyObj.record st0 :: PyObj.record st10 :: r.1 ++ [PyObj.record stDone], stDone, true)
    | EngineRun.failure persisted stAtFail msg =>
      let stFail := statusUpdate stAtFail
        [("status", JVal.jstr "failed"),
         ("error", JVal.jstr ("Error in training process: " ++ msg)),
         ("end_time", JVal.jstr endTime)]
      (PyObj.record st0 :: PyObj.record st10 :: persisted ++ [PyObj.record stFail],
        stFail, true)

/-- Embeds `run_training_prediction_async`
(`train_prediciton_save/router.py` lines 43-143): same shape as
`run_training_async` up to `train_model` (with its own progress map,
whose `'metadata'` entry is 60), then persists the intermediate
record with status `"Начинаем прогноз"` and progress 70, runs the
prediction, and — on success — performs the final
`status.update({"progress": 100, 'status': 'completed'})` with no
further `save_session_metadata` call, so the completed record is never
persisted. -/
def run_training_prediction_async (vres : ValidationResult) (engine : EngineRun)
    (predict : PredictRun) (tp : String → Int)
    (startTime endTime sessPath origName : String)
    (params : List (String × String)) : List PyObj × StatusRec × Bool :=
  let st0 := initialRunStatus startTime sessPath origName params
  if vres.is_valid = false then
    let stFail := statusUpdate st0
      [("status", JVal.jstr "failed"),
       ("error", JVal.jstr (validation_error_message vres.errors)),
       ("end_time", JVal.jstr endTime)]
    ([PyObj.record st0, PyObj.record stFail], stFail, false)
  else
    let st10 := statusUpdate st0 [("progress", JVal.jnum 10)]
    match engine with
    | EngineRun.success =>
      let r := train_model_success tp st10
      let stPred := statusUpdate r.2
        [("status", JVal.jstr "Начинаем прогноз"),
         ("end_time", JVal.jstr endTime),
         ("progress", JVal.jnum 70),
         ("model_path", JVal.jstr (sessPath ++ "/model")),
         ("training_parameters", JVal.jdict params)]
      match predict with
      | PredictRun.success =>
        let stDone := statusUpdate stPred
          [("progress", JVal.jnum 100), ("status", JVal.jstr "completed")]
        (PyObj.record st0 :: PyObj.record st10 :: r.1 ++ [PyObj.record stPred],
          stDone, true)
      | PredictRun.failure msg =>
        let stFail := statusUpdate stPred
          [("status", JVal.jstr "failed"),
           ("error", JVal.jstr msg),
           ("end_time", JVal.jstr endTime)]
        (PyObj.record st0 :: PyObj.record st10 :: r.1 ++
          [PyObj.record stPred, PyObj.record stFail], stFail, true)
    | EngineRun.failure persisted stAtFail msg =>
      let stFail := statusUpdate stAtFail
        [("status", JVal.jstr "failed"),
         ("error", JVal.jstr ("Error in training process: " ++ msg)),
         ("end_time", JVal.jstr endTime)]
      (PyObj.record st0 :: PyObj.record st10 :: persisted ++ [PyObj.record stFail],
        stFail, true)

/-- C4: whenever the submitted dataset fails structural validation the
background job records a terminal failed status whose reason is the
concatenation of the concrete validation messages (prefixed as at
`training/router.py` line 83) and the forecasting engine is never
entered; and in particular a present, non-numeric target column (with
the earlier checks passing) makes validation fail with exactly the
message citing that column. -/
theorem validation_failure_aborts :
    (∀ (vres : ValidationResult) (engine : EngineRun) (tp : String → Int)
        (startTime endTime sessPath origName : String)
        (params : List (String × String)),
      vres.is_valid = false →
        (run_training_async vres engine tp startTime endTime sessPath origName
            params).2.2 = false ∧
        getKey (run_training_async vres engine tp startTime endTime sessPath origName
            params).2.1 "status" = some (JVal.jstr "failed") ∧
        getKey (run_training_async vres engine tp startTime endTime sessPath origName
            params).2.1 "error" =
          some (JVal.jstr (validation_error_message vres.errors))) ∧
    (∀ (df : DataFrame) (to_datetime_ok : String → Bool)
        (to_datetime_err : String → String) (dt_col tgt_col : String)
        (id_col : Option String) (d : Dtype),
      missingRequired df dt_col tgt_col id_col = [] →
      dtCheckFails df to_datetime_ok dt_col = false →
      colGiven tgt_col = true →
      df.hasCol tgt_col = true →
      df.dtypeOf tgt_col = some d →
      d.isNumeric = false →
        validate_dataset df to_datetime_ok to_datetime_err dt_col tgt_col id_col =
          { is_valid := false, errors := [badTargetMsg tgt_col] }) := by
  constructor
  · intro vres engine tp startTime endTime sessPath origName params h
    refine ⟨by simp [run_training_async, h], ?_, ?_⟩ <;>
      simp [run_training_async, h, statusUpdate, initialRunStatus, setKey, getKey]
  · intro df to_datetime_ok to_datetime_err dt_col tgt_col id_col d h1 h2 h3 h4 h5 h6
    have htgt : tgtCheckFails df tgt_col = true := by
      simp [tgtCheckFails, h3, h4, h5, h6]
    simp [validate_dataset, h1, h2, htgt]

/-- Concrete dataset for the C4 witness: a parseable datetime column, an
object-typed (non-numeric) target column named `sales`, and an id
column. -/
def dfEx : DataFrame :=
  { cols := [{ name := "date", dtype := Dtype.datetime64 },
             { name := "sales", dtype := Dtype.objectDtype },
             { name := "id", dtype := Dtype.objectDtype }] }

/-- Datetime-parse oracle for the witness: every column parses. -/
def tdOkEx : String → Bool := fun _ => true

/-- Exception-text oracle for the witness (never consulted). -/
def tdErrEx : String → String := fun _ => ""

/-- C4 witness: the theorem applied to the concrete dataset whose target
column `sales` is non-numeric — validation fails citing that column, and
the orchestration run on that validation result ends failed, with the
concatenated message, without entering the engine. -/
theorem validation_failure_aborts_witness :
    validate_dataset dfEx tdOkEx tdErrEx "date" "sales" (some "id") =
      { is_valid := false,
        errors := ["Колонка sales должна содержать числовые значения."] } ∧
    (run_training_async (validate_dataset dfEx tdOkEx tdErrEx "date" "sales" (some "id"))
        EngineRun.success (fun _ => 0) "t0" "t1" "p" "f.csv" []).2.2 = false ∧
    getKey (run_training_async (validate_dataset dfEx tdOkEx tdErrEx "date" "sales"
        (some "id")) EngineRun.success (fun _ => 0) "t0" "t1" "p" "f.csv" []).2.1
      "error" =
      some (JVal.jstr
        "Данные не прошли валидацию: Колонка sales должна содержать числовые значения.") := by
  have h2 := validation_failure_aborts.2 dfEx tdOkEx tdErrEx "date" "sales" (some "id")
    Dtype.objectDtype (by decide) (by decide) (by decide) (by decide) (by decide)
    (by decide)
  have h1 := validation_failure_aborts.1
    (validate_dataset dfEx tdOkEx tdErrEx "date" "sales" (some "id"))
    EngineRun.success (fun _ => 0) "t0" "t1" "p" "f.csv" [] (by rw [h2])
  refine ⟨by rw [h2]; rfl, h1.1, ?_⟩
  rw [h1.2.2, h2]
  rfl

/-- Progress map handed to `train_model` by `run_training_async`
(`training/router.py` lines 98-105). -/
def tpTrain : String → Int := fun s =>
  if s = "preparation" then 20
  else if s = "holidays" then 30
  else if s = "missings" then 40
  else if s = "dataframe" then 50
  else if s = "training" then 60
  else if s = "metadata" then 90
  else 0

/-- Progress map handed to `train_model` by
`run_training_prediction_async` (`train_prediciton_save/router.py` lines
87-94). -/
def tpTPS : String → Int := fun s =>
  if s = "preparation" then 10
  else if s = "holidays" then 20
  else if s = "missings" then 30
  else if s = "dataframe" then 40
  else if s = "training" then 50
  else if s = "metadata" then 60
  else 0

/-- Persisted status trace of a fully successful run of the plain
training flow. -/
def trainFlowTrace : List PyObj :=
  (run_training_async { is_valid := true, errors := [] } EngineRun.success tpTrain
    "t0" "t1" "p" "f.csv" []).1

/-- Persisted status trace of a fully successful run of the combined
train-predict-save flow. -/
def tpsFlowTrace : List PyObj :=
  (run_training_prediction_async { is_valid := true, errors := [] } EngineRun.success
    PredictRun.success tpTPS "t0" "t1" "p" "f.csv" []).1

/-- C9 evaluation at the failing input: on a fully successful run the
plain training flow persists the bare integer 90 (the value of
`text_to_progress['metadata']`) as an entire status record — a scalar,
not a key-value mapping — via the slip at `training/router.py` line 264;
the combined flow likewise persists the bare integer 60, and its last
persisted record still carries the non-terminal label
`"Начинаем прогноз"` with progress 70, because the final
`{"progress": 100, "status": "completed"}` update is never saved. -/
theorem status_trace_violations :
    trainFlowTrace[8]? = some (PyObj.scalarInt 90) ∧
    (trainFlowTrace.any (fun v =>
      match v with
      | PyObj.record _ => false
      | PyObj.scalarInt _ => true)) = true ∧
    tpsFlowTrace[8]? = some (PyObj.scalarInt 60) ∧
    (tpsFlowTrace.getLast?.bind (fun v => jget v "status")) =
      some (JVal.jstr "Начинаем прогноз") ∧
    (tpsFlowTrace.getLast?.bind (fun v => jget v "progress")) =
      some (JVal.jnum 70) ∧
    "Начинаем прогноз" ≠ "completed" ∧
    "Начинаем прогноз" ≠ "failed" := by
  refine ⟨rfl, rfl, rfl, rfl, rfl, by decide, by decide⟩

end TSApp
